import Mathlib

set_option maxHeartbeats 1000000
set_option maxRecDepth 8192

/-!
Shallow embedding of `src/app.py` (davereim/prec-lead-processor).

The external OpenAI call (`call_openai`, lines 39-46) is modelled by its
input/output contract only: each embedded function receives the outcome of
the single completion call as a `call : Except String String` parameter
(`.error e` = the service raised an exception with message `e`,
`.ok content` = the returned message text).  The Python `json` standard
library's `json.loads` is likewise modelled as an external parameter
`decode : String → Option Json` (`none` = `json.loads` raised,
`some v` = the decoded value).  Flask request plumbing, the optional
shared-secret auth gate and logging are out of scope per the spec; the
endpoints are embedded as functions of the parsed JSON payload.

Python values that can flow through the pipeline are modelled by `Json`;
Python `dict`s are insertion-ordered association lists, and the dynamic
(`TypeError`/`AttributeError`) behaviour of `in`, item assignment and
`.get` on non-dict values is modelled explicitly, since
`handle_gmail_lead_reply` (lines 104-117) applies them to whatever
`json.loads` produced.
-/

inductive Json where
  | null : Json
  | bool : Bool → Json
  | num : Int → Json
  | str : String → Json
  | arr : List Json → Json
  | obj : List (String × Json) → Json

/-!
Python string primitives.  Lean's own `String.trim`/`String.splitOn` are
defined by well-founded recursion and do not reduce definitionally, so the
Python `str` operations the pipeline uses (`strip`, `split`, `replace`,
`join`, `lower`, slicing, `in`) are modelled here by structurally recursive
functions on character lists.
-/

/-- Whitespace for Python `str.strip()` (ASCII subset). -/
def isPySpace (c : Char) : Bool :=
  c == ' ' || c == '\t' || c == '\n' || c == '\r'

/-- Python `s.strip()`. -/
def pyStrip (s : String) : String :=
  String.mk (((s.toList.dropWhile isPySpace).reverse.dropWhile isPySpace).reverse)

/-- Python slicing `s[:n]`. -/
def pyTake (n : Nat) (s : String) : String :=
  String.mk (s.toList.take n)

/-- Python `s.lower()` (ASCII range). -/
def pyLower (s : String) : String :=
  String.mk (s.toList.map Char.toLower)

def startsWithList : List Char → List Char → Bool
  | [], _ => true
  | _ :: _, [] => false
  | a :: as, b :: bs => a == b && startsWithList as bs

/-- First occurrence of (non-empty) `sep`: the part before it and the part
after it. -/
def splitFirst (sep : List Char) : List Char → Option (List Char × List Char)
  | [] => none
  | c :: rest =>
      if startsWithList sep (c :: rest) then some ([], (c :: rest).drop sep.length)
      else
        match splitFirst sep rest with
        | none => none
        | some (pre, post) => some (c :: pre, post)

def pySplitAux (sep : List Char) : Nat → List Char → List (List Char)
  | 0, l => [l]
  | fuel + 1, l =>
      match splitFirst sep l with
      | none => [l]
      | some (pre, post) => pre :: pySplitAux sep fuel post

/-- Python `s.split(sep)` for a non-empty separator: non-overlapping
occurrences scanned left to right, empty pieces kept. -/
def pySplitOn (sep : String) (s : String) : List String :=
  (pySplitAux sep.toList (s.toList.length + 1) s.toList).map String.mk

def joinList (sep : List Char) : List (List Char) → List Char
  | [] => []
  | [x] => x
  | x :: xs => x ++ sep ++ joinList sep xs

/-- Python `sep.join(parts)`. -/
def pyJoin (sep : String) (parts : List String) : String :=
  String.mk (joinList sep.toList (parts.map String.toList))

/-- Python `s.replace(pat, repl)` for a non-empty pattern. -/
def pyReplace (s pat repl : String) : String :=
  String.mk (joinList repl.toList (pySplitAux pat.toList (s.toList.length + 1) s.toList))

/-- Python substring test `needle in hay` (both strings): splitting on the
needle gives exactly one piece iff the needle does not occur; the empty
needle is always contained. -/
def pyInStr (needle hay : String) : Bool :=
  needle == "" || (pySplitOn needle hay).length != 1

/-- First-match lookup in an insertion-ordered Python dict. -/
def dictLookup : List (String × Json) → String → Option Json
  | [], _ => none
  | kv :: rest, key => if kv.1 = key then some kv.2 else dictLookup rest key

/-- Python dict item assignment `d[key] = val`: replaces in place, else appends. -/
def dictSet : List (String × Json) → String → Json → List (String × Json)
  | [], key, val => [(key, val)]
  | kv :: rest, key, val =>
      if kv.1 = key then (key, val) :: rest else kv :: dictSet rest key val

/-- Python dict membership `key in d`. -/
def containsKey (kvs : List (String × Json)) (key : String) : Bool :=
  kvs.any (fun kv => kv.1 == key)

/-- Python truthiness of a JSON-shaped value. -/
def pyTruthy : Json → Bool
  | .null => false
  | .bool b => b
  | .num n => n != 0
  | .str s => s != ""
  | .arr xs => !xs.isEmpty
  | .obj kvs => !kvs.isEmpty

/-- Python `a or b` on pipeline values. -/
def pyOrJ (a b : Json) : Json := if pyTruthy a then a else b

/-- Python `opt or d` where `opt` is an optional string (absent JSON key ↦
`none`): falsy (missing or empty) falls through to the default. -/
def pyOrS : Option String → String → String
  | none, d => d
  | some s, d => if s = "" then d else s

/-- An optional string as the corresponding Python value (`None` or `str`). -/
def optStr : Option String → Json
  | none => .null
  | some s => .str s

/-- Python `key in v` for an arbitrary value `v`, as used by the
`if key not in parsed` test in `handle_gmail_lead_reply` (line 114):
dict = key membership, str = substring test, list = element equality with
the string `key`; ints, bools and None are not iterable and raise. -/
def pyContains : Json → String → Except String Bool
  | .obj kvs, key => .ok (containsKey kvs key)
  | .str s, key => .ok (pyInStr key s)
  | .arr xs, key =>
      .ok (xs.any (fun x => match x with | .str s => s == key | _ => false))
  | .num _, _ => .error "TypeError: argument of type \x27int\x27 is not iterable"
  | .bool _, _ => .error "TypeError: argument of type \x27bool\x27 is not iterable"
  | .null, _ => .error "TypeError: argument of type \x27NoneType\x27 is not iterable"

/-- Python `v[key] = val` (line 115): only dicts support string item assignment. -/
def pySetItem : Json → String → Json → Except String Json
  | .obj kvs, key, val => .ok (.obj (dictSet kvs key val))
  | _, _, _ => .error "TypeError: object does not support item assignment"

/-- Python `v.get(key)` (lines 330-335, 363): dict lookup defaulting to `None`;
any non-dict value has no `.get` attribute and raises. -/
def pyGet : Json → String → Except String Json
  | .obj kvs, key => .ok ((dictLookup kvs key).getD .null)
  | _, _ => .error "AttributeError: object has no attribute get"

/-- The canned reply returned when the OpenAI call raises (lines 81-86). -/
def GATEWAY_FALLBACK_REPLY : String :=
  "Hi there,\n\nThanks for reaching out. I saw your note and will follow up shortly.\n\nCheers,\nDavid\n"

/-- The `(key, default)` table of `handle_gmail_lead_reply`'s
"ensure all expected keys exist" loop (lines 105-113). -/
def leadDefaults (email_text : String) : List (String × Json) :=
  [("name", .null),
   ("email", .null),
   ("phone", .null),
   ("lead_type", .str "Other"),
   ("priority", .str "Medium"),
   ("summary", .str (pyTake 500 email_text)),
   ("reply", .str "")]

/-- The fallback payload built when `json.loads` raises (lines 94-102). -/
def decodeFallback (email_text content : String) : Json :=
  .obj
    [("name", .null),
     ("email", .null),
     ("phone", .null),
     ("lead_type", .str "Other"),
     ("priority", .str "Medium"),
     ("summary", .str (pyTake 500 email_text)),
     ("reply", .str content)]

/-- The "ensure all expected keys exist" loop (lines 104-116): for each
`(key, default)`, `if key not in parsed: parsed[key] = default`. -/
def ensureKeys (email_text : String) (v : Json) : Except String Json :=
  (leadDefaults email_text).foldlM
    (fun acc kd => do
      let b ← pyContains acc kd.1
      if b then pure acc else pySetItem acc kd.1 kd.2)
    v

/-- `handle_gmail_lead_reply` (lines 49-117).  `call` is the outcome of the
single `call_openai` invocation, `decode` models `json.loads`.  A returned
`.error` models an exception propagating out of the function. -/
def handle_gmail_lead_reply (decode : String → Option Json)
    (call : Except String String) (email_text : String) : Except String Json :=
  match call with
  | .error e =>
      .ok (.obj
        [("name", .null),
         ("email", .null),
         ("phone", .null),
         ("lead_type", .str "Other"),
         ("priority", .str "Medium"),
         ("summary", .str (pyTake 500 email_text)),
         ("reply", .str GATEWAY_FALLBACK_REPLY),
         ("error", .str ("openai_error: " ++ e))])
  | .ok content =>
      let parsed :=
        match decode content with
        | none => decodeFallback email_text content
        | some v => v
      ensureKeys email_text parsed

/-- `handle_generic_task` (lines 120-183) with the call outcome as a
parameter; only the returned result structure is modelled (the prompt text
feeds the external call, which is the `call` parameter here). -/
def handle_generic_task (call : Except String String)
    (body : String) (from_name from_email phone : Option String) : Json :=
  let reply_text :=
    match call with
    | .ok t => t
    | .error e =>
        "Hi there,\n\nThanks for your message. I will review it and follow up with next steps.\n\nCheers,\nDavid\n(Error details: " ++ e ++ ")"
  .obj
    [("name", optStr from_name),
     ("email", optStr from_email),
     ("phone", optStr phone),
     ("lead_type", .str "Other"),
     ("priority", .str "Medium"),
     ("summary", .str (pyTake 500 body)),
     ("reply", .str reply_text)]

/-- The nested `form_data` map sent by the Apps Script (line 269-271). -/
structure FormData where
  form_name : Option String
  first_name : Option String

/-- The parsed JSON payload of a request, with the fields the endpoints read
(absent key ↦ `none`). -/
structure LeadData where
  body : Option String
  body_text : Option String
  from_name : Option String
  from_email : Option String
  subject : Option String
  phone : Option String
  source : Option String
  task_type : Option String
  form_data : Option FormData

/-- The 400 response body for a missing/blank body (lines 207, 260). -/
def missingBodyError : Json :=
  .obj [("error", .str "missing \x27body\x27 or \x27body_text\x27 in JSON")]

/-- The trimmed body selected by `data.get("body") or data.get("body_text") or ""`
followed by `.strip()` (lines 203-204, 256-257). -/
def selectedBody (data : LeadData) : String :=
  pyStrip (pyOrS data.body (pyOrS data.body_text ""))

/-- The Harrison-keyword test (lines 273-280): case-insensitive hit on the
`form_data.form_name` sub-field, the subject line, or the body text. -/
def isHarrison (data : LeadData) : Bool :=
  let body := selectedBody data
  let subject := pyOrS data.subject ""
  let fd := data.form_data.getD ⟨none, none⟩
  let form_name := pyLower (pyOrS fd.form_name "")
  pyInStr "harrison" form_name ||
    pyInStr "harrison" (pyLower subject) ||
    pyInStr "harrison" (pyLower body)

/-- The fixed Harrison plain-text reply (lines 303-318), parameterized only by
the resolved first name. -/
def harrisonReplyText (first_name : String) : String :=
  "Hi " ++ first_name ++
  ",\n\nThanks so much for reaching out through my website and asking to stay updated on Harrison Lake properties. I’m excited to help you keep an eye on the best deals as they come up. It’s a beautiful area with a mix of cabins, waterfront homes, and unique getaway spots.\n\nTo make sure I send you the most relevant updates, would you be open to a quick 5-minute discovery call? That way I can learn a bit more about what you’re looking for, whether it’s a year-round home or vacation property, and tailor updates to match your goals.\n\nYou can reach me directly at 604-340-4400, or if you prefer, let me know a day and time that works best and I’ll give you a call.\n\nLooking forward to connecting,\n\nCheers,\nDavid"

/-- The fixed Harrison HTML reply (lines 286-294, after `.strip()`). -/
def harrisonReplyHtml (first_name : String) : String :=
  "<p>Hi " ++ first_name ++
  ",</p>\n<p>Thanks so much for reaching out through my website and asking to stay updated on Harrison Lake properties. I’m excited to help you keep an eye on the best deals as they come up. It’s a beautiful area with a mix of cabins, waterfront homes, and unique getaway spots.</p>\n<p>To make sure I send you the most relevant updates, would you be open to a quick 5-minute discovery call? That way I can learn a bit more about what you’re looking for, whether it’s a year-round home or vacation property, and tailor updates to match your goals.</p>\n<p>You can reach me directly at 604-340-4400, or if you prefer, let me know a day and time that works best and I’ll give you a call.</p>\n<p>Looking forward to connecting,</p>\n<p>Cheers,<br>\nDavid</p>"

/-- The fallback HTML used when the GPT reply is empty (lines 350-356,
after `.strip()`); `{subject or "your inquiry"}`. -/
def defaultReplyHtml (from_name subject : String) : String :=
  "<p>Hi " ++ from_name ++
  ",</p>\n<p>Thanks for your message about <b>" ++
  (if subject = "" then "your inquiry" else subject) ++
  "</b>. I will review the details and follow up with next steps.</p>\n<p>Cheers,<br>\nDavid Reimers PREC*<br>\nRoyal LePage West Real Estate Services</p>"

/-- The plain-text-to-HTML conversion of a (string) GPT reply
(lines 338-356): a falsy (empty) reply yields the fallback HTML; otherwise
the stripped text is split into paragraphs on blank lines (`"\n\n"`), each
paragraph stripped and dropped if empty; more than one paragraph is wrapped
into one `<p>` tag each with inner newlines as `<br>`, otherwise the whole
stripped text becomes a single `<p>` block. -/
def render_reply_html (from_name subject reply_text : String) : String :=
  if reply_text = "" then defaultReplyHtml from_name subject
  else
    let text := pyStrip reply_text
    let paragraphs := ((pySplitOn "\n\n" text).map pyStrip).filter (fun p => p != "")
    if paragraphs.length > 1 then
      "<p>" ++
        pyJoin "</p><p>" (paragraphs.map (fun p => pyReplace p "\n" "<br>")) ++
        "</p>"
    else
      "<p>" ++ pyReplace text "\n" "<br>" ++ "</p>"

/-- The rendering step applied to `reply_text = result.get("reply") or ""`
(lines 335-356).  A truthy non-string value has no `.strip()` attribute and
raises; a string goes through `render_reply_html` (whose empty case is
exactly the falsy branch of the Python `if reply_text:`); any other falsy
value takes the fallback HTML branch. -/
def renderStep (from_name subject : String) (reply_text : Json) : Except String String :=
  match reply_text with
  | .str s => .ok (render_reply_html from_name subject s)
  | v =>
      if pyTruthy v then
        .error "AttributeError: object has no attribute strip"
      else
        .ok (defaultReplyHtml from_name subject)

/-- `lead_endpoint` (`POST /lead`, lines 239-366), after the out-of-scope
auth gate.  Returns `(status, response body)`, or `.error` when an unhandled
Python exception would propagate to Flask. -/
def lead_endpoint (decode : String → Option Json)
    (call : Except String String) (data : LeadData) : Except String (Nat × Json) :=
  let body := selectedBody data
  if body = "" then .ok (400, missingBodyError)
  else
    let from_name := pyOrS data.from_name "there"
    let from_email := data.from_email
    let subject := pyOrS data.subject ""
    let phone := data.phone
    let source := pyOrS data.source "gmail"
    let fd := data.form_data.getD ⟨none, none⟩
    let first_name_from_form := fd.first_name
    if isHarrison data then
      let first_name := pyStrip (pyOrS first_name_from_form (pyOrS (some from_name) "there"))
      .ok (200, .obj
        [("name", .str first_name),
         ("email", optStr from_email),
         ("phone", optStr phone),
         ("lead_type", .str "Buyer"),
         ("priority", .str "Medium"),
         ("summary", .str (pyTake 500 body)),
         ("reply", .str (harrisonReplyText first_name)),
         ("reply_html", .str (harrisonReplyHtml first_name)),
         ("source", .str source)])
    else do
      let result ← handle_gmail_lead_reply decode call body
      let rn ← pyGet result "name"
      let result_name := pyOrJ rn (.str from_name)
      let re ← pyGet result "email"
      let result_email := pyOrJ re (optStr from_email)
      let rp ← pyGet result "phone"
      let result_phone := pyOrJ rp (optStr phone)
      let rr ← pyGet result "reply"
      let reply_text := pyOrJ rr (.str "")
      let reply_html ← renderStep from_name subject reply_text
      let r1 ← pySetItem result "name" result_name
      let r2 ← pySetItem r1 "email" result_email
      let r3 ← pySetItem r2 "phone" result_phone
      let r4 ← pySetItem r3 "reply_html" (.str reply_html)
      let rs ← pyGet r4 "source"
      let r5 ← pySetItem r4 "source" (pyOrJ rs (.str source))
      .ok (200, r5)

/-- The caller-metadata dict built by `process_lead_or_task` (lines 212-218). -/
def metaJson (data : LeadData) : Json :=
  .obj
    [("from_name", optStr data.from_name),
     ("from_email", optStr data.from_email),
     ("subject", optStr data.subject),
     ("phone", optStr data.phone),
     ("source", optStr data.source)]

/-- `process_lead_or_task` (`POST /`, lines 186-236), after the out-of-scope
auth gate; `now` stands for `datetime.utcnow().isoformat()`. -/
def process_lead_or_task (decode : String → Option Json)
    (call : Except String String) (now : String) (data : LeadData) :
    Except String (Nat × Json) :=
  let body := selectedBody data
  if body = "" then .ok (400, missingBodyError)
  else
    let task_type := pyOrS data.task_type "gmail_lead_reply"
    do
      let result ←
        if task_type = "gmail_lead_reply" then
          handle_gmail_lead_reply decode call body
        else
          .ok (handle_generic_task call body data.from_name data.from_email data.phone)
      .ok (200, .obj
        [("timestamp", .str now),
         ("task_type", .str task_type),
         ("input_preview", .str (pyTake 500 body)),
         ("meta", metaJson data),
         ("result", result)])

/-- Modelled from the spec: the Text Normalizer component (spec section 4.3)
is not present in `src/` (the spec notes the repository holds further
near-duplicate variants of this endpoint; only their common pipeline is in
`src/app.py`).  Per the spec it applies a fixed table of one-to-one
character/substring replacements: curly double quotes, guillemets and the
low double quote to `"`, curly single quotes and the low single quote to
`\x27`, en/em dash and minus sign to `-`, the ellipsis glyph to `...`, and
the non-breaking space to a regular space; everything else passes through. -/
def normChar (c : Char) : List Char :=
  if c = '“' ∨ c = '”' ∨ c = '„' ∨ c = '«' ∨ c = '»' then ['"']
  else if c = '‘' ∨ c = '’' ∨ c = '‚' then ['\x27']
  else if c = '–' ∨ c = '—' ∨ c = '−' then ['-']
  else if c = '…' then ['.', '.', '.']
  else if c = '\u00A0' then [' ']
  else [c]

/-- Modelled from the spec: `normalize(text)` maps the smart-punctuation
table over the string (spec section 4.3).  (Named `normalizeText` here
because `normalize` is taken by Mathlib.) -/
def normalizeText (s : String) : String :=
  String.mk (s.toList.flatMap normChar)

/-- Modelled from the spec: the `LeadRecord` produced by the Schema Repairer
(spec section 3), with the two structural enum-valued fields kept as
strings. -/
structure LeadRecord where
  name : Option String
  email : Option String
  phone : Option String
  lead_type : String
  priority : String
  summary : String
  reply : String

/-- Modelled from the spec: the Lead Extractor's normalization step, "Text
Normalizer on every text field" (spec section 4.4) — applied to the
human-facing text fields `name`, `email`, `phone`, `summary`, `reply` and
never to the structural fields `lead_type`, `priority`. -/
def normalizeRecord (r : LeadRecord) : LeadRecord :=
  { r with
    name := r.name.map normalizeText
    email := r.email.map normalizeText
    phone := r.phone.map normalizeText
    summary := normalizeText r.summary
    reply := normalizeText r.reply }

/-! ### Behaviour of the ensure-keys loop on decoded objects -/

/-- What the ensure-keys loop computes on a dict: each still-missing
`(key, default)` pair is appended in table order. -/
def addMissing : List (String × Json) → List (String × Json) → List (String × Json)
  | kvs, [] => kvs
  | kvs, kd :: rest =>
      addMissing (if containsKey kvs kd.1 then kvs else kvs ++ [kd]) rest

theorem dictSet_absent (kvs : List (String × Json)) (key : String) (val : Json)
    (h : containsKey kvs key = false) : dictSet kvs key val = kvs ++ [(key, val)] := by
  induction kvs with
  | nil => rfl
  | cons kv rest ih =>
      simp only [containsKey, List.any_cons, Bool.or_eq_false_iff, beq_eq_false_iff_ne,
        ne_eq] at h
      simp only [dictSet, if_neg h.1, List.cons_append, List.cons.injEq, true_and]
      exact ih (by simpa [containsKey] using h.2)

theorem exceptBind_ok {α β : Type} (a : α) (k : α → Except String β) :
    (Except.ok a >>= k : Except String β) = k a := rfl

theorem exceptPure_eq {α : Type} (a : α) :
    (pure a : Except String α) = Except.ok a := rfl

theorem ensureKeys_foldl (kds : List (String × Json)) (kvs : List (String × Json)) :
    kds.foldlM
      (fun acc kd => do
        let b ← pyContains acc kd.1
        if b then pure acc else pySetItem acc kd.1 kd.2)
      (Json.obj kvs) = Except.ok (Json.obj (addMissing kvs kds)) := by
  induction kds generalizing kvs with
  | nil => rfl
  | cons kd rest ih =>
      by_cases h : containsKey kvs kd.1 = true
      · have ha : addMissing kvs (kd :: rest) = addMissing kvs rest := by
          simp [addMissing, h]
        rw [ha, ← ih kvs, List.foldlM_cons]
        simp [pyContains, exceptBind_ok, h, exceptPure_eq]
      · have h' : containsKey kvs kd.1 = false := Bool.eq_false_iff.mpr h
        have ha : addMissing kvs (kd :: rest) = addMissing (kvs ++ [kd]) rest := by
          simp [addMissing, h']
        rw [ha, ← ih (kvs ++ [kd]), List.foldlM_cons]
        simp [pyContains, exceptBind_ok, h', pySetItem, dictSet_absent _ _ _ h',
          exceptPure_eq]

/-- `ensureKeys` on a decoded object appends the missing defaults in order. -/
theorem ensureKeys_obj (email_text : String) (kvs : List (String × Json)) :
    ensureKeys email_text (Json.obj kvs) =
      Except.ok (Json.obj (addMissing kvs (leadDefaults email_text))) :=
  ensureKeys_foldl _ _

theorem containsKey_append (kvs : List (String × Json)) (p : String × Json)
    (key : String) :
    containsKey (kvs ++ [p]) key = (containsKey kvs key || p.1 == key) := by
  simp [containsKey]

theorem dictLookup_append_of_contains (kvs : List (String × Json))
    (p : String × Json) (key : String) (h : containsKey kvs key = true) :
    dictLookup (kvs ++ [p]) key = dictLookup kvs key := by
  induction kvs with
  | nil => simp [containsKey] at h
  | cons kv rest ih =>
      by_cases hk : kv.1 = key
      · simp [dictLookup, hk]
      · simp only [containsKey, List.any_cons, Bool.or_eq_true, beq_iff_eq] at h
        rcases h with h | h
        · exact absurd h hk
        · simp [dictLookup, hk, ih (by simpa [containsKey] using h)]

theorem dictLookup_append_absent (kvs : List (String × Json)) (key : String)
    (val : Json) (h : containsKey kvs key = false) :
    dictLookup (kvs ++ [(key, val)]) key = some val := by
  induction kvs with
  | nil => simp [dictLookup]
  | cons kv rest ih =>
      simp only [containsKey, List.any_cons, Bool.or_eq_false_iff,
        beq_eq_false_iff_ne, ne_eq] at h
      simp only [List.cons_append, dictLookup, if_neg h.1]
      exact ih (by simpa [containsKey] using h.2)

theorem containsKey_of_lookup (kvs : List (String × Json)) (key : String)
    (v : Json) (h : dictLookup kvs key = some v) : containsKey kvs key = true := by
  induction kvs with
  | nil => simp [dictLookup] at h
  | cons kv rest ih =>
      by_cases hk : kv.1 = key
      · simp [containsKey, hk]
      · simp only [dictLookup, if_neg hk] at h
        have h2 := ih h
        simp only [containsKey, List.any_cons] at h2 ⊢
        simp [h2]

/-- Existing entries keep their value through `addMissing`. -/
theorem addMissing_lookup_preserved (kds kvs : List (String × Json))
    (key : String) (v : Json) (h : dictLookup kvs key = some v) :
    dictLookup (addMissing kvs kds) key = some v := by
  induction kds generalizing kvs with
  | nil => exact h
  | cons kd rest ih =>
      simp only [addMissing]
      by_cases hc : containsKey kvs kd.1 = true
      · simpa [hc] using ih kvs h
      · have hc' : containsKey kvs kd.1 = false := Bool.eq_false_iff.mpr hc
        simp only [hc', Bool.false_eq_true, if_false]
        exact ih _ (by
          rw [dictLookup_append_of_contains _ _ _ (containsKey_of_lookup _ _ _ h)]
          exact h)

/-- Present keys stay present through `addMissing`. -/
theorem addMissing_contains_preserved (kds kvs : List (String × Json))
    (key : String) (h : containsKey kvs key = true) :
    containsKey (addMissing kvs kds) key = true := by
  induction kds generalizing kvs with
  | nil => exact h
  | cons kd rest ih =>
      simp only [addMissing]
      by_cases hc : containsKey kvs kd.1 = true
      · simpa [hc] using ih kvs h
      · have hc' : containsKey kvs kd.1 = false := Bool.eq_false_iff.mpr hc
        simp only [hc', Bool.false_eq_true, if_false]
        exact ih _ (by simp [containsKey_append, h])

/-- Every key of the defaults table is present after `addMissing`. -/
theorem addMissing_contains_of_mem (kds kvs : List (String × Json))
    (key : String) (d : Json) (h : (key, d) ∈ kds) :
    containsKey (addMissing kvs kds) key = true := by
  induction kds generalizing kvs with
  | nil => simp at h
  | cons kd rest ih =>
      rcases List.mem_cons.1 h with h | h
      · subst h
        simp only [addMissing]
        by_cases hc : containsKey kvs key = true
        · simpa [hc] using addMissing_contains_preserved rest kvs key hc
        · have hc' : containsKey kvs key = false := Bool.eq_false_iff.mpr hc
          simp only [hc', Bool.false_eq_true, if_false]
          exact addMissing_contains_preserved rest _ key (by simp [containsKey_append])
      · simp only [addMissing]
        exact ih _ h

/-- A key absent from the dict and from the defaults table stays absent. -/
theorem addMissing_contains_false (kds kvs : List (String × Json))
    (key : String) (h1 : containsKey kvs key = false)
    (h2 : ∀ d, (key, d) ∉ kds) (h3 : key ∉ kds.map Prod.fst) :
    containsKey (addMissing kvs kds) key = false := by
  induction kds generalizing kvs with
  | nil => exact h1
  | cons kd rest ih =>
      simp only [List.map_cons, List.mem_cons] at h3
      push_neg at h3
      simp only [addMissing]
      by_cases hc : containsKey kvs kd.1 = true
      · simp only [hc, if_true]
        exact ih kvs h1 (fun d hd => h2 d (List.mem_cons_of_mem _ hd)) h3.2
      · have hc' : containsKey kvs kd.1 = false := Bool.eq_false_iff.mpr hc
        simp only [hc', Bool.false_eq_true, if_false]
        refine ih _ ?_ (fun d hd => h2 d (List.mem_cons_of_mem _ hd)) h3.2
        rw [containsKey_append, h1]
        simp only [Bool.false_or, beq_eq_false_iff_ne, ne_eq]
        exact fun he => h3.1 he.symm

/-- A missing key from a duplicate-free defaults table receives its default. -/
theorem addMissing_lookup_default (kds kvs : List (String × Json))
    (key : String) (d : Json) (hmem : (key, d) ∈ kds)
    (habs : containsKey kvs key = false)
    (hnodup : (kds.map Prod.fst).Nodup) :
    dictLookup (addMissing kvs kds) key = some d := by
  induction kds generalizing kvs with
  | nil => simp at hmem
  | cons kd rest ih =>
      simp only [List.map_cons, List.nodup_cons] at hnodup
      rcases List.mem_cons.1 hmem with h | h
      · subst h
        simp only [addMissing, habs, Bool.false_eq_true, if_false]
        exact addMissing_lookup_preserved rest _ key d
          (dictLookup_append_absent kvs key d habs)
      · have hne : kd.1 ≠ key := by
          intro he
          exact hnodup.1 (he ▸ List.mem_map_of_mem Prod.fst h)
        simp only [addMissing]
        by_cases hc : containsKey kvs kd.1 = true
        · simpa [hc] using ih _ h habs hnodup.2
        · have hc' : containsKey kvs kd.1 = false := Bool.eq_false_iff.mpr hc
          simp only [hc', Bool.false_eq_true, if_false]
          refine ih _ h ?_ hnodup.2
          rw [containsKey_append, habs]
          simp only [Bool.false_or, beq_eq_false_iff_ne, ne_eq]
          exact hne

/-! ### Generic helper lemmas -/

theorem handle_ok (decode : String → Option Json) (content email : String) :
    handle_gmail_lead_reply decode (.ok content) email =
      ensureKeys email
        (match decode content with
         | none => decodeFallback email content
         | some v => v) := rfl

/-- The HTTP status of an endpoint outcome (`none` when an exception
escaped to Flask). -/
def respStatus : Except String (Nat × Json) → Option Nat
  | .ok (s, _) => some s
  | .error _ => none

/-- Whether a pipeline value is a dict containing `key`. -/
def objHasKey (j : Json) (key : String) : Bool :=
  match j with
  | .obj kvs => containsKey kvs key
  | _ => false

theorem pyOrJ_str_empty (s : String) : pyOrJ (.str s) (.str "") = .str s := by
  unfold pyOrJ pyTruthy
  by_cases h : s = ""
  · subst h; rfl
  · rw [if_pos (by simp [h])]

theorem leadDefaults_keys (email : String) :
    (leadDefaults email).map Prod.fst =
      ["name", "email", "phone", "lead_type", "priority", "summary", "reply"] := rfl

theorem leadDefaults_keys_nodup (email : String) :
    ((leadDefaults email).map Prod.fst).Nodup := by
  rw [leadDefaults_keys]; decide

theorem error_notin_leadDefaults (email : String) :
    "error" ∉ (leadDefaults email).map Prod.fst := by
  rw [leadDefaults_keys]; decide

/-! ### Stability of the modelled Text Normalizer -/

theorem normChar_stable (c : Char) : (normChar c).flatMap normChar = normChar c := by
  by_cases h1 : c = '“' ∨ c = '”' ∨ c = '„' ∨ c = '«' ∨ c = '»'
  · have hc : normChar c = ['"'] := by simp only [normChar]; rw [if_pos h1]
    rw [hc]; decide
  · by_cases h2 : c = '‘' ∨ c = '’' ∨ c = '‚'
    · have hc : normChar c = ['\x27'] := by
        simp only [normChar]; rw [if_neg h1, if_pos h2]
      rw [hc]; decide
    · by_cases h3 : c = '–' ∨ c = '—' ∨ c = '−'
      · have hc : normChar c = ['-'] := by
          simp only [normChar]; rw [if_neg h1, if_neg h2, if_pos h3]
        rw [hc]; decide
      · by_cases h4 : c = '…'
        · have hc : normChar c = ['.', '.', '.'] := by
            simp only [normChar]; rw [if_neg h1, if_neg h2, if_neg h3, if_pos h4]
          rw [hc]; decide
        · by_cases h5 : c = ' '
          · have hc : normChar c = [' '] := by
              simp only [normChar]
              rw [if_neg h1, if_neg h2, if_neg h3, if_neg h4, if_pos h5]
            rw [hc]; decide
          · have hc : normChar c = [c] := by
              simp only [normChar]
              rw [if_neg h1, if_neg h2, if_neg h3, if_neg h4, if_neg h5]
            rw [hc]
            simp [hc]

theorem flatMap_normChar_stable (l : List Char) :
    (l.flatMap normChar).flatMap normChar = l.flatMap normChar := by
  induction l with
  | nil => rfl
  | cons c cs ih =>
      simp only [List.flatMap_cons, List.flatMap_append, normChar_stable, ih]

/-! ### Claims -/

/-- C10: the Text Normalizer is idempotent (`normalize(normalize(x)) ==
normalize(x)` for all strings), it is applied to every human-facing text
field (`name`, `email`, `phone`, `summary`, `reply`) of the extracted lead
record and never to the structural fields (`lead_type`, `priority`), and it
maps smart punctuation to ASCII equivalents.  (The normalizer is modelled
from the spec, section 4.3, as it is not part of `src/`.) -/
theorem C10_normalizer_idempotent :
    (∀ x : String, normalizeText (normalizeText x) = normalizeText x) ∧
    (∀ r : LeadRecord,
      (normalizeRecord r).name = r.name.map normalizeText ∧
      (normalizeRecord r).email = r.email.map normalizeText ∧
      (normalizeRecord r).phone = r.phone.map normalizeText ∧
      (normalizeRecord r).summary = normalizeText r.summary ∧
      (normalizeRecord r).reply = normalizeText r.reply ∧
      (normalizeRecord r).lead_type = r.lead_type ∧
      (normalizeRecord r).priority = r.priority) ∧
    (∀ r : LeadRecord, normalizeRecord (normalizeRecord r) = normalizeRecord r) ∧
    normalizeText "“Hi” — they’re nice…" = "\"Hi\" - they\x27re nice..." := by
  have hid : ∀ x : String, normalizeText (normalizeText x) = normalizeText x :=
    fun x => congrArg String.mk (flatMap_normChar_stable x.toList)
  refine ⟨hid, ?_, ?_, by decide⟩
  · intro r
    exact ⟨rfl, rfl, rfl, rfl, rfl, rfl, rfl⟩
  · intro r
    simp only [normalizeRecord]
    cases hn : r.name <;> cases he : r.email <;> cases hp : r.phone <;>
      simp [hid, Option.map_map, Function.comp]

/-- C1: for every model output text that fails strict JSON decoding and
every input email text, the handler returns a record with `reply` equal to
the raw model text verbatim, `lead_type` "Other", `priority` "Medium",
`summary` equal to the first 500 characters of the input email, and `name`,
`email`, `phone` all null; the record carries no `error` key, so the decode
failure is not surfaced to the caller. -/
theorem C1_decode_failure_fallback (decode : String → Option Json)
    (content email : String) (h : decode content = none) :
    handle_gmail_lead_reply decode (.ok content) email =
      .ok (.obj
        [("name", .null), ("email", .null), ("phone", .null),
         ("lead_type", .str "Other"), ("priority", .str "Medium"),
         ("summary", .str (pyTake 500 email)), ("reply", .str content)]) ∧
    containsKey
      [("name", Json.null), ("email", Json.null), ("phone", Json.null),
       ("lead_type", Json.str "Other"), ("priority", Json.str "Medium"),
       ("summary", Json.str (pyTake 500 email)), ("reply", Json.str content)]
      "error" = false := by
  refine ⟨?_, rfl⟩
  rw [handle_ok, h]
  rfl

/-- C1 witness: the fallback at the concrete malformed output `"not json"`. -/
theorem C1_witness :
    handle_gmail_lead_reply (fun _ => none) (.ok "not json") "Hello Dave" =
      .ok (.obj
        [("name", .null), ("email", .null), ("phone", .null),
         ("lead_type", .str "Other"), ("priority", .str "Medium"),
         ("summary", .str (pyTake 500 "Hello Dave")), ("reply", .str "not json")]) ∧
    containsKey
      [("name", Json.null), ("email", Json.null), ("phone", Json.null),
       ("lead_type", Json.str "Other"), ("priority", Json.str "Medium"),
       ("summary", Json.str (pyTake 500 "Hello Dave")), ("reply", Json.str "not json")]
      "error" = false :=
  C1_decode_failure_fallback (fun _ => none) "not json" "Hello Dave" rfl

/-- C9: contrary to the claim, the pipeline core is not exception-free: a
model output that decodes to a JSON value that is not an object — here the
JSON number `5` — makes the ensure-keys loop's `key not in parsed` test
raise `TypeError` (line 114), which propagates out of the handler and out of
the `/lead` endpoint. -/
theorem C9_nonobject_json_is_fatal :
    handle_gmail_lead_reply (fun c => if c = "5" then some (Json.num 5) else none)
      (.ok "5") "hello" =
      .error "TypeError: argument of type \x27int\x27 is not iterable" ∧
    lead_endpoint (fun c => if c = "5" then some (Json.num 5) else none)
      (.ok "5") ⟨some "hello", none, none, none, none, none, none, none, none⟩ =
      .error "TypeError: argument of type \x27int\x27 is not iterable" := ⟨rfl, rfl⟩

/-- C8 counterexample: a model output that decodes as JSON but not as an
object (the number `5`) raises a `TypeError` instead of any field being set
to a default; and for an output decoding to the empty object, the absent
`reply` field is set to the empty string — not to a canned reply (the canned
`GATEWAY_FALLBACK_REPLY` is non-empty and is used only on the gateway-failure
path). -/
theorem C8_counterexample :
    handle_gmail_lead_reply (fun c => if c = "5" then some (Json.num 5) else none)
      (.ok "5") "email body" =
      .error "TypeError: argument of type \x27int\x27 is not iterable" ∧
    handle_gmail_lead_reply (fun c => if c = "{}" then some (Json.obj []) else none)
      (.ok "{}") "email body" =
      .ok (.obj
        [("name", .null), ("email", .null), ("phone", .null),
         ("lead_type", .str "Other"), ("priority", .str "Medium"),
         ("summary", .str (pyTake 500 "email body")), ("reply", .str "")]) ∧
    GATEWAY_FALLBACK_REPLY ≠ "" := ⟨rfl, rfl, by decide⟩

/-- C8 (amended): for every model output that decodes to a JSON object, the
handler returns that object with every canonical field that was absent
appended with its documented default — null for `name`, `email`, `phone`,
"Other" for `lead_type`, "Medium" for `priority`, the first 500 characters
of the input for `summary`, and the empty string for `reply`. -/
theorem C8_object_decode_defaults (decode : String → Option Json)
    (content email : String) (kvs : List (String × Json))
    (h : decode content = some (.obj kvs)) :
    handle_gmail_lead_reply decode (.ok content) email =
      .ok (.obj (addMissing kvs (leadDefaults email))) ∧
    ∀ k d, (k, d) ∈ leadDefaults email → containsKey kvs k = false →
      dictLookup (addMissing kvs (leadDefaults email)) k = some d := by
  constructor
  · rw [handle_ok, h]
    exact ensureKeys_obj email kvs
  · intro k d hm hab
    exact addMissing_lookup_default _ _ _ _ hm hab (leadDefaults_keys_nodup email)

/-- C8 witness: an object missing `priority` gets `priority = "Medium"`. -/
theorem C8_witness :
    handle_gmail_lead_reply
      (fun c => if c = "C" then some (.obj [("name", .str "Bo")]) else none)
      (.ok "C") "e" =
      .ok (.obj (addMissing [("name", .str "Bo")] (leadDefaults "e"))) ∧
    dictLookup (addMissing [("name", .str "Bo")] (leadDefaults "e")) "priority" =
      some (.str "Medium") := by
  have h := C8_object_decode_defaults
    (fun c => if c = "C" then some (.obj [("name", .str "Bo")]) else none)
    "C" "e" [("name", .str "Bo")] rfl
  refine ⟨h.1, h.2 "priority" (.str "Medium") ?_ rfl⟩
  apply List.mem_cons_of_mem
  apply List.mem_cons_of_mem
  apply List.mem_cons_of_mem
  apply List.mem_cons_of_mem
  exact List.mem_cons_self _ _

/-- C3 counterexample: a decoded model object with an extra key — here
`"extra"` — is returned with that key retained, so the record does not
contain only the seven canonical fields plus `error`. -/
theorem C3_counterexample :
    handle_gmail_lead_reply
      (fun c => if c = "ex" then some (.obj [("extra", .str "x")]) else none)
      (.ok "ex") "e" =
      .ok (.obj
        [("extra", .str "x"), ("name", .null), ("email", .null), ("phone", .null),
         ("lead_type", .str "Other"), ("priority", .str "Medium"),
         ("summary", .str (pyTake 500 "e")), ("reply", .str "")]) ∧
    ("extra" ∉
      (["name", "email", "phone", "lead_type", "priority", "summary", "reply",
        "error"] : List String)) := ⟨rfl, by decide⟩

/-- C3 (amended): every record the handler returns contains at least the
seven canonical fields: the gateway-failure path returns exactly the seven
plus `error`, the decode-failure path exactly the seven, and a decoded
object gets every missing canonical key appended while its own keys
(including any extra keys the model emitted) are retained. -/
theorem C3_field_presence (decode : String → Option Json) (email : String) :
    (∀ e, handle_gmail_lead_reply decode (.error e) email =
      .ok (.obj
        [("name", .null), ("email", .null), ("phone", .null),
         ("lead_type", .str "Other"), ("priority", .str "Medium"),
         ("summary", .str (pyTake 500 email)),
         ("reply", .str GATEWAY_FALLBACK_REPLY),
         ("error", .str ("openai_error: " ++ e))])) ∧
    (∀ content, decode content = none →
      handle_gmail_lead_reply decode (.ok content) email =
        .ok (.obj
          [("name", .null), ("email", .null), ("phone", .null),
           ("lead_type", .str "Other"), ("priority", .str "Medium"),
           ("summary", .str (pyTake 500 email)), ("reply", .str content)])) ∧
    (∀ content kvs, decode content = some (.obj kvs) →
      handle_gmail_lead_reply decode (.ok content) email =
        .ok (.obj (addMissing kvs (leadDefaults email))) ∧
      (∀ k d, (k, d) ∈ leadDefaults email →
        containsKey (addMissing kvs (leadDefaults email)) k = true) ∧
      (∀ k, containsKey kvs k = true →
        containsKey (addMissing kvs (leadDefaults email)) k = true)) := by
  refine ⟨fun e => rfl, ?_, ?_⟩
  · intro content h
    rw [handle_ok, h]
    rfl
  · intro content kvs h
    refine ⟨?_, ?_, ?_⟩
    · rw [handle_ok, h]
      exact ensureKeys_obj email kvs
    · intro k d hm
      exact addMissing_contains_of_mem _ _ _ _ hm
    · intro k hk
      exact addMissing_contains_preserved _ _ _ hk

/-- C3 witness: the three paths at concrete inputs. -/
theorem C3_witness :
    handle_gmail_lead_reply (fun _ => none) (.error "boom") "hi" =
      .ok (.obj
        [("name", .null), ("email", .null), ("phone", .null),
         ("lead_type", .str "Other"), ("priority", .str "Medium"),
         ("summary", .str (pyTake 500 "hi")),
         ("reply", .str GATEWAY_FALLBACK_REPLY),
         ("error", .str ("openai_error: " ++ "boom"))]) ∧
    handle_gmail_lead_reply (fun _ => none) (.ok "junk") "hi" =
      .ok (.obj
        [("name", .null), ("email", .null), ("phone", .null),
         ("lead_type", .str "Other"), ("priority", .str "Medium"),
         ("summary", .str (pyTake 500 "hi")), ("reply", .str "junk")]) := by
  have h := C3_field_presence (fun _ => none) "hi"
  exact ⟨h.1 "boom", h.2.1 "junk" rfl⟩

/-- Whether a handler outcome is a record carrying an `error` key. -/
def resultHasError : Except String Json → Bool
  | .ok j => objHasKey j "error"
  | .error _ => false

/-- C2 counterexample: the gateway-failure branch is not the only path that
populates `error` — on a successful call whose output decodes to an object
that itself contains an `error` key, that key is retained in the returned
record even though no gateway failure occurred. -/
theorem C2_counterexample :
    handle_gmail_lead_reply
      (fun c => if c = "J" then some (.obj [("error", .str "fake")]) else none)
      (.ok "J") "e" =
      .ok (.obj
        [("error", .str "fake"), ("name", .null), ("email", .null), ("phone", .null),
         ("lead_type", .str "Other"), ("priority", .str "Medium"),
         ("summary", .str (pyTake 500 "e")), ("reply", .str "")]) := rfl

/-- C2 (amended): when the completion call raises, the handler returns a
record with `lead_type` "Other", `priority` "Medium", `summary` = first 500
characters of the input, the non-empty canned reply, and an `error` field
carrying the failure message, and the `/lead` endpoint still responds with
status 200; the gateway-failure branch is the only branch of the code that
inserts an `error` field — on a successful call the handler adds no `error`
key, though a decoded model object that already carries one keeps it. -/
theorem C2_gateway_failure (decode : String → Option Json) (email e : String)
    (data : LeadData) (hb : selectedBody data ≠ "") :
    handle_gmail_lead_reply decode (.error e) email =
      .ok (.obj
        [("name", .null), ("email", .null), ("phone", .null),
         ("lead_type", .str "Other"), ("priority", .str "Medium"),
         ("summary", .str (pyTake 500 email)),
         ("reply", .str GATEWAY_FALLBACK_REPLY),
         ("error", .str ("openai_error: " ++ e))]) ∧
    GATEWAY_FALLBACK_REPLY ≠ "" ∧
    respStatus (lead_endpoint decode (.error e) data) = some 200 ∧
    (∀ content, decode content = none →
      resultHasError (handle_gmail_lead_reply decode (.ok content) email) = false) ∧
    (∀ content kvs, decode content = some (.obj kvs) →
      containsKey kvs "error" = false →
      resultHasError (handle_gmail_lead_reply decode (.ok content) email) = false) := by
  refine ⟨rfl, by decide, ?_, ?_, ?_⟩
  · simp only [lead_endpoint]
    rw [if_neg hb]
    cases hH : isHarrison data with
    | true => rfl
    | false => rfl
  · intro content h
    rw [handle_ok, h]
    rfl
  · intro content kvs h hke
    rw [handle_ok, h]
    show resultHasError (ensureKeys email (Json.obj kvs)) = false
    rw [ensureKeys_obj]
    show containsKey (addMissing kvs (leadDefaults email)) "error" = false
    exact addMissing_contains_false _ _ _ hke
      (fun d hd => error_notin_leadDefaults email (List.mem_map_of_mem Prod.fst hd))
      (error_notin_leadDefaults email)

/-- C2 witness: concrete gateway failure and success. -/
theorem C2_witness :
    handle_gmail_lead_reply (fun _ => none) (.error "timeout") "Hi" =
      .ok (.obj
        [("name", .null), ("email", .null), ("phone", .null),
         ("lead_type", .str "Other"), ("priority", .str "Medium"),
         ("summary", .str (pyTake 500 "Hi")),
         ("reply", .str GATEWAY_FALLBACK_REPLY),
         ("error", .str ("openai_error: " ++ "timeout"))]) ∧
    respStatus (lead_endpoint (fun _ => none) (.error "timeout")
      ⟨some "hello", none, none, none, none, none, none, none, none⟩) = some 200 ∧
    resultHasError (handle_gmail_lead_reply (fun _ => none) (.ok "junk") "Hi") =
      false := by
  have h := C2_gateway_failure (fun _ => none) "Hi" "timeout"
    ⟨some "hello", none, none, none, none, none, none, none, none⟩ (by decide)
  exact ⟨h.1, h.2.2.1, h.2.2.2.1 "junk" rfl⟩

/-- C4 counterexample: on the non-template path a successful render appends
no signature block — `"Hi."` renders to exactly `"<p>Hi.</p>"`, which
contains neither the brokerage name nor the phone number the claimed
signature (name, brokerage, phone, link) would carry. -/
theorem C4_counterexample :
    render_reply_html "Pat" "Lot 12" "Hi." = "<p>Hi.</p>" ∧
    pyInStr "Royal LePage" "<p>Hi.</p>" = false ∧
    pyInStr "604-340-4400" "<p>Hi.</p>" = false ∧
    pyInStr "David" "<p>Hi.</p>" = false := ⟨rfl, rfl, rfl, rfl⟩

/-- C4 (amended): the renderer splits a non-empty reply on blank lines into
trimmed non-empty paragraphs, wraps each in its own paragraph tag with
single newlines becoming `<br>` (one block when at most one paragraph
results), and for empty reply text produces the fixed default apology body
(which carries its own sign-off naming David Reimers PREC* and the
brokerage); no signature block is appended after a non-empty render. -/
theorem C4_render_paragraphs :
    render_reply_html "Pat" "Lot" "Hi.\n\nThanks." = "<p>Hi.</p><p>Thanks.</p>" ∧
    render_reply_html "Pat" "Lot" "Hi." = "<p>Hi.</p>" ∧
    render_reply_html "Pat" "Lot" "Hi.\nSecond line" = "<p>Hi.<br>Second line</p>" ∧
    render_reply_html "Pat" "Lot" "A\nB\n\nC\n\nD" = "<p>A<br>B</p><p>C</p><p>D</p>" ∧
    render_reply_html "Pat" "Lot" "  Hi.\n\nThanks.  " = "<p>Hi.</p><p>Thanks.</p>" ∧
    (∀ fn sj : String, render_reply_html fn sj "" =
      "<p>Hi " ++ fn ++ ",</p>\n<p>Thanks for your message about <b>" ++
      (if sj = "" then "your inquiry" else sj) ++
      "</b>. I will review the details and follow up with next steps.</p>\n<p>Cheers,<br>\nDavid Reimers PREC*<br>\nRoyal LePage West Real Estate Services</p>") ∧
    pyInStr "Royal LePage" "<p>Hi.</p><p>Thanks.</p>" = false :=
  ⟨rfl, rfl, rfl, rfl, rfl, fun fn sj => rfl, rfl⟩

/-- C7: a request whose `body` and `body_text` are both absent, empty, or
whitespace-only after trimming is rejected with the 400 error response by
both endpoints, for every completion-call outcome — so no external call can
influence the result. -/
theorem C7_blank_body_rejected (decode : String → Option Json)
    (call : Except String String) (now : String) (data : LeadData)
    (hb : pyStrip (data.body.getD "") = "")
    (hbt : pyStrip (data.body_text.getD "") = "") :
    lead_endpoint decode call data = .ok (400, missingBodyError) ∧
    process_lead_or_task decode call now data = .ok (400, missingBodyError) := by
  have hsel : selectedBody data = "" := by
    unfold selectedBody
    cases hB : data.body with
    | none =>
        simp only [pyOrS]
        cases hBT : data.body_text with
        | none => rfl
        | some t =>
            rw [hB] at hb
            rw [hBT] at hbt
            simp only [Option.getD] at hbt
            by_cases ht : t = ""
            · subst ht; rfl
            · simp [pyOrS, ht, hbt]
    | some s =>
        rw [hB] at hb
        simp only [Option.getD] at hb
        by_cases hs : s = ""
        · subst hs
          simp only [pyOrS, if_pos rfl]
          cases hBT : data.body_text with
          | none => rfl
          | some t =>
              rw [hBT] at hbt
              simp only [Option.getD] at hbt
              by_cases ht : t = ""
              · subst ht; rfl
              · simp [pyOrS, ht, hbt]
        · simp [pyOrS, hs, hb]
  constructor
  · simp only [lead_endpoint, hsel]
    rfl
  · simp only [process_lead_or_task, hsel]
    rfl

/-- C7 witness: a whitespace-only `body` with an empty `body_text`. -/
theorem C7_witness :
    lead_endpoint (fun _ => none) (.ok "ignored") 
      ⟨some "   ", some "", none, none, none, none, none, none, none⟩ =
      .ok (400, missingBodyError) ∧
    process_lead_or_task (fun _ => none) (.ok "ignored") "2024-01-01T00:00:00"
      ⟨some "   ", some "", none, none, none, none, none, none, none⟩ =
      .ok (400, missingBodyError) :=
  C7_blank_body_rejected (fun _ => none) (.ok "ignored") "2024-01-01T00:00:00"
    ⟨some "   ", some "", none, none, none, none, none, none, none⟩ rfl rfl

/-- C6: the template matcher is case-insensitive and a keyword hit on any
one of `form_data.form_name`, the subject, or the body alone triggers the
short-circuit path; the matched branch synthesizes the complete reply
deterministically from the fixed template parameterized only by the
resolved first name (form-supplied first name preferred, then
caller-supplied name, else "there"), and its response is independent of the
completion service and of the JSON decoder — the model is never consulted. -/
theorem C6_template_short_circuit (decode decode2 : String → Option Json)
    (call call2 : Except String String) (data : LeadData)
    (hb : selectedBody data ≠ "") (hH : isHarrison data = true) :
    lead_endpoint decode call data =
      .ok (200, .obj
        [("name", .str (pyStrip (pyOrS (data.form_data.getD ⟨none, none⟩).first_name
            (pyOrS (some (pyOrS data.from_name "there")) "there")))),
         ("email", optStr data.from_email),
         ("phone", optStr data.phone),
         ("lead_type", .str "Buyer"),
         ("priority", .str "Medium"),
         ("summary", .str (pyTake 500 (selectedBody data))),
         ("reply", .str (harrisonReplyText
            (pyStrip (pyOrS (data.form_data.getD ⟨none, none⟩).first_name
              (pyOrS (some (pyOrS data.from_name "there")) "there"))))),
         ("reply_html", .str (harrisonReplyHtml
            (pyStrip (pyOrS (data.form_data.getD ⟨none, none⟩).first_name
              (pyOrS (some (pyOrS data.from_name "there")) "there"))))),
         ("source", .str (pyOrS data.source "gmail"))]) ∧
    lead_endpoint decode call data = lead_endpoint decode2 call2 data ∧
    isHarrison ⟨some "I want property updates", none, none, none, none, none,
      none, none, some ⟨some "Harrison Updates", none⟩⟩ = true ∧
    isHarrison ⟨some "hello there", none, none, none,
      some "Question about HARRISON Lake", none, none, none, none⟩ = true ∧
    isHarrison ⟨some "Tell me about harrISON lake cabins", none, none, none,
      none, none, none, none, none⟩ = true ∧
    isHarrison ⟨some "hello there", none, none, none, none, none, none, none,
      none⟩ = false := by
  have h1 : ∀ (d : String → Option Json) (c : Except String String),
      lead_endpoint d c data =
        .ok (200, .obj
          [("name", .str (pyStrip (pyOrS (data.form_data.getD ⟨none, none⟩).first_name
              (pyOrS (some (pyOrS data.from_name "there")) "there")))),
           ("email", optStr data.from_email),
           ("phone", optStr data.phone),
           ("lead_type", .str "Buyer"),
           ("priority", .str "Medium"),
           ("summary", .str (pyTake 500 (selectedBody data))),
           ("reply", .str (harrisonReplyText
              (pyStrip (pyOrS (data.form_data.getD ⟨none, none⟩).first_name
                (pyOrS (some (pyOrS data.from_name "there")) "there"))))),
           ("reply_html", .str (harrisonReplyHtml
              (pyStrip (pyOrS (data.form_data.getD ⟨none, none⟩).first_name
                (pyOrS (some (pyOrS data.from_name "there")) "there"))))),
           ("source", .str (pyOrS data.source "gmail"))]) := by
    intro d c
    simp only [lead_endpoint]
    rw [if_neg hb, hH]
    rfl
  exact ⟨h1 decode call, (h1 decode call).trans (h1 decode2 call2).symm,
    rfl, rfl, rfl, rfl⟩

/-- C6 witness: a Harrison subject with a caller-supplied name. -/
theorem C6_witness :
    lead_endpoint (fun _ => none) (.ok "model output")
      ⟨some "Please send info", none, some "Pat", none,
        some "About Harrison Lake", none, none, none, none⟩ =
      .ok (200, .obj
        [("name", .str (pyStrip (pyOrS
            ((⟨some "Please send info", none, some "Pat", none,
              some "About Harrison Lake", none, none, none, none⟩ :
                LeadData).form_data.getD ⟨none, none⟩).first_name
            (pyOrS (some (pyOrS (some "Pat") "there")) "there")))),
         ("email", optStr none),
         ("phone", optStr none),
         ("lead_type", .str "Buyer"),
         ("priority", .str "Medium"),
         ("summary", .str (pyTake 500 (selectedBody
            ⟨some "Please send info", none, some "Pat", none,
              some "About Harrison Lake", none, none, none, none⟩))),
         ("reply", .str (harrisonReplyText (pyStrip (pyOrS
            ((⟨some "Please send info", none, some "Pat", none,
              some "About Harrison Lake", none, none, none, none⟩ :
                LeadData).form_data.getD ⟨none, none⟩).first_name
            (pyOrS (some (pyOrS (some "Pat") "there")) "there"))))),
         ("reply_html", .str (harrisonReplyHtml (pyStrip (pyOrS
            ((⟨some "Please send info", none, some "Pat", none,
              some "About Harrison Lake", none, none, none, none⟩ :
                LeadData).form_data.getD ⟨none, none⟩).first_name
            (pyOrS (some (pyOrS (some "Pat") "there")) "there"))))),
         ("source", .str (pyOrS none "gmail"))]) ∧
    lead_endpoint (fun _ => none) (.ok "model output")
      ⟨some "Please send info", none, some "Pat", none,
        some "About Harrison Lake", none, none, none, none⟩ =
      lead_endpoint (fun _ => some (.obj [])) (.error "down")
        ⟨some "Please send info", none, some "Pat", none,
          some "About Harrison Lake", none, none, none, none⟩ := by
  have h := C6_template_short_circuit (fun _ => none) (fun _ => some (.obj []))
    (.ok "model output") (.error "down")
    ⟨some "Please send info", none, some "Pat", none,
      some "About Harrison Lake", none, none, none, none⟩ (by decide) rfl
  exact ⟨h.1, h.2.1⟩

/-- The non-Harrison branch of `lead_endpoint` (lines 326-366) for a handler
result that is a dict: caller metadata is merged field by field with
Python-`or` precedence, the reply is rendered, and `reply_html`/`source` are
attached. -/
theorem lead_endpoint_merge (decode : String → Option Json)
    (call : Except String String) (data : LeadData)
    (hb : selectedBody data ≠ "") (hH : isHarrison data = false)
    (L : List (String × Json))
    (hrec : handle_gmail_lead_reply decode call (selectedBody data) =
      .ok (.obj L))
    (rhtml : String)
    (hrender : renderStep (pyOrS data.from_name "there") (pyOrS data.subject "")
      (pyOrJ ((dictLookup L "reply").getD .null) (.str "")) = .ok rhtml) :
    lead_endpoint decode call data = .ok (200, .obj (
      dictSet
        (dictSet
          (dictSet
            (dictSet
              (dictSet L "name"
                (pyOrJ ((dictLookup L "name").getD .null)
                  (.str (pyOrS data.from_name "there"))))
              "email"
              (pyOrJ ((dictLookup L "email").getD .null) (optStr data.from_email)))
            "phone"
            (pyOrJ ((dictLookup L "phone").getD .null) (optStr data.phone)))
          "reply_html" (.str rhtml))
        "source"
        (pyOrJ ((dictLookup
            (dictSet
              (dictSet
                (dictSet
                  (dictSet L "name"
                    (pyOrJ ((dictLookup L "name").getD .null)
                      (.str (pyOrS data.from_name "there"))))
                  "email"
                  (pyOrJ ((dictLookup L "email").getD .null) (optStr data.from_email)))
                "phone"
                (pyOrJ ((dictLookup L "phone").getD .null) (optStr data.phone)))
              "reply_html" (.str rhtml)) "source").getD .null)
          (.str (pyOrS data.source "gmail"))))) := by
  simp only [lead_endpoint]
  rw [if_neg hb, hH]
  simp only [Bool.false_eq_true, if_false]
  rw [hrec]
  simp only [exceptBind_ok, pyGet]
  rw [hrender]
  simp only [exceptBind_ok, pySetItem]

/-- C5 counterexample: the output `source` field does not always equal the
caller-supplied source (or "gmail"): a decoded model object carrying its own
non-empty `source` value takes precedence over the caller's — here the
caller sent `source = "mysite"` but the response's `source` is the
model-supplied "model-says". -/
theorem C5_counterexample :
    lead_endpoint
      (fun c => if c = "X" then some (.obj [("source", .str "model-says")]) else none)
      (.ok "X")
      ⟨some "hello", none, none, none, none, none, some "mysite", none, none⟩ =
      .ok (200, .obj
        [("source", .str "model-says"),
         ("name", .str "there"),
         ("email", .null),
         ("phone", .null),
         ("lead_type", .str "Other"),
         ("priority", .str "Medium"),
         ("summary", .str "hello"),
         ("reply", .str ""),
         ("reply_html", .str "<p>Hi there,</p>\n<p>Thanks for your message about <b>your inquiry</b>. I will review the details and follow up with next steps.</p>\n<p>Cheers,<br>\nDavid Reimers PREC*<br>\nRoyal LePage West Real Estate Services</p>")]) ∧
    ("model-says" : String) ≠ "mysite" ∧ ("model-says" : String) ≠ "gmail" :=
  ⟨rfl, by decide, by decide⟩

/-- C5 (amended): for every request and every model output decoding to a
seven-field schema record, the merge precedence holds uniformly for `name`,
`email` and `phone` — the model-extracted value wins if non-empty, else the
caller-supplied metadata value, else the placeholder "there" for `name` and
null for the others — and `source` equals the caller-supplied source or
"gmail" when absent (a model record without a `source` key, as here, cannot
override it; the counterexample shows a model-supplied `source` would take
precedence). -/
theorem C5_merge_precedence (decode : String → Option Json) (content : String)
    (data : LeadData) (nm em ph : Option String) (lt pr su re : String)
    (hb : selectedBody data ≠ "") (hH : isHarrison data = false)
    (h : decode content = some (.obj
      [("name", optStr nm), ("email", optStr em), ("phone", optStr ph),
       ("lead_type", .str lt), ("priority", .str pr), ("summary", .str su),
       ("reply", .str re)])) :
    lead_endpoint decode (.ok content) data =
      .ok (200, .obj
        [("name", pyOrJ (optStr nm) (.str (pyOrS data.from_name "there"))),
         ("email", pyOrJ (optStr em) (optStr data.from_email)),
         ("phone", pyOrJ (optStr ph) (optStr data.phone)),
         ("lead_type", .str lt),
         ("priority", .str pr),
         ("summary", .str su),
         ("reply", .str re),
         ("reply_html", .str (render_reply_html (pyOrS data.from_name "there")
            (pyOrS data.subject "") re)),
         ("source", .str (pyOrS data.source "gmail"))]) ∧
    (∀ (s : String) (j : Json), s ≠ "" → pyOrJ (optStr (some s)) j = .str s) ∧
    (∀ j : Json, pyOrJ (optStr none) j = j) ∧
    pyOrJ (optStr (some "Jordan")) (.str "Pat") = .str "Jordan" ∧
    pyOrJ (optStr none) (.str "Pat") = .str "Pat" ∧
    pyOrS none "there" = "there" := by
  refine ⟨?_, ?_, fun j => rfl, rfl, rfl, rfl⟩
  · have hrec : handle_gmail_lead_reply decode (.ok content) (selectedBody data) =
        .ok (.obj
          [("name", optStr nm), ("email", optStr em), ("phone", optStr ph),
           ("lead_type", .str lt), ("priority", .str pr), ("summary", .str su),
           ("reply", .str re)]) := by
      rw [handle_ok, h]
      rfl
    have hrender : renderStep (pyOrS data.from_name "there") (pyOrS data.subject "")
        (pyOrJ ((dictLookup
          [("name", optStr nm), ("email", optStr em), ("phone", optStr ph),
           ("lead_type", .str lt), ("priority", .str pr), ("summary", .str su),
           ("reply", .str re)] "reply").getD .null) (.str "")) =
        .ok (render_reply_html (pyOrS data.from_name "there")
          (pyOrS data.subject "") re) := by
      rw [show pyOrJ ((dictLookup
          [("name", optStr nm), ("email", optStr em), ("phone", optStr ph),
           ("lead_type", .str lt), ("priority", .str pr), ("summary", .str su),
           ("reply", .str re)] "reply").getD .null) (Json.str "") =
          pyOrJ (.str re) (.str "") from rfl, pyOrJ_str_empty]
      rfl
    have hm := lead_endpoint_merge decode (.ok content) data hb hH _ hrec _ hrender
    exact hm.trans (by rfl)
  · intro s j hs
    simp [pyOrJ, optStr, pyTruthy, hs]

/-- C5 witness: extracted name absent, caller name "Pat", no caller source. -/
theorem C5_witness :
    lead_endpoint
      (fun c => if c = "C5" then some (.obj
        [("name", optStr none), ("email", optStr (some "a@b.c")),
         ("phone", optStr none), ("lead_type", .str "Buyer"),
         ("priority", .str "High"), ("summary", .str "s"),
         ("reply", .str "Hi.")]) else none)
      (.ok "C5")
      ⟨some "hello", none, some "Pat", none, none, none, none, none, none⟩ =
      .ok (200, .obj
        [("name", pyOrJ (optStr none) (.str (pyOrS (some "Pat") "there"))),
         ("email", pyOrJ (optStr (some "a@b.c")) (optStr none)),
         ("phone", pyOrJ (optStr none) (optStr none)),
         ("lead_type", .str "Buyer"),
         ("priority", .str "High"),
         ("summary", .str "s"),
         ("reply", .str "Hi."),
         ("reply_html", .str (render_reply_html (pyOrS (some "Pat") "there")
            (pyOrS none "") "Hi.")),
         ("source", .str (pyOrS none "gmail"))]) ∧
    pyOrJ (optStr (some "Jordan")) (.str "Pat") = .str "Jordan" := by
  have h := C5_merge_precedence
    (fun c => if c = "C5" then some (.obj
      [("name", optStr none), ("email", optStr (some "a@b.c")),
       ("phone", optStr none), ("lead_type", .str "Buyer"),
       ("priority", .str "High"), ("summary", .str "s"),
       ("reply", .str "Hi.")]) else none)
    "C5" ⟨some "hello", none, some "Pat", none, none, none, none, none, none⟩
    none (some "a@b.c") none "Buyer" "High" "s" "Hi." (by decide) rfl rfl
  exact ⟨h.1, h.2.2.2.1⟩
